import Mathlib

/-!
Verification of the x5margin-solana staking-pool client
(`anchor-workspace/web3/pool/index.js`) and of the pool state machine
described by its specification.

JavaScript numbers are modelled by `JsVal`: a finite rational, positive or
negative infinity, or NaN.  The client's arithmetic (`+`, `-`, `*`, `/`,
`Math.round`, `**`) is embedded by total functions on `JsVal` following
ECMAScript semantics on the values that arise here (the exponent of `**` is
always the result of `Math.round`, hence integral, infinite or NaN).
Token amounts and durations are u64 values, modelled as `ℕ`; `toNumber()`
followed by `toFixed(20)` and numeric re-coercion is exact on such integers
and is modelled as the identity embedding `ℕ → ℚ`.
-/

namespace PoolClient

/-- A JavaScript number: finite (as an exact rational), `Infinity`,
`-Infinity`, or `NaN`. -/
inductive JsVal where
  | fin : ℚ → JsVal
  | inf : JsVal
  | ninf : JsVal
  | nan : JsVal
deriving DecidableEq, Repr

/-- ECMAScript addition on `JsVal`. -/
def jsAdd : JsVal → JsVal → JsVal
  | .nan, _ => .nan
  | _, .nan => .nan
  | .fin a, .fin b => .fin (a + b)
  | .fin _, .inf => .inf
  | .fin _, .ninf => .ninf
  | .inf, .fin _ => .inf
  | .inf, .inf => .inf
  | .inf, .ninf => .nan
  | .ninf, .fin _ => .ninf
  | .ninf, .inf => .nan
  | .ninf, .ninf => .ninf

/-- ECMAScript subtraction on `JsVal`. -/
def jsSub : JsVal → JsVal → JsVal
  | .nan, _ => .nan
  | _, .nan => .nan
  | .fin a, .fin b => .fin (a - b)
  | .fin _, .inf => .ninf
  | .fin _, .ninf => .inf
  | .inf, .fin _ => .inf
  | .inf, .inf => .nan
  | .inf, .ninf => .inf
  | .ninf, .fin _ => .ninf
  | .ninf, .inf => .ninf
  | .ninf, .ninf => .nan

/-- ECMAScript multiplication on `JsVal` (`0 * ±Infinity = NaN`). -/
def jsMul : JsVal → JsVal → JsVal
  | .nan, _ => .nan
  | _, .nan => .nan
  | .fin a, .fin b => .fin (a * b)
  | .fin a, .inf => if a = 0 then .nan else if 0 < a then .inf else .ninf
  | .fin a, .ninf => if a = 0 then .nan else if 0 < a then .ninf else .inf
  | .inf, .fin b => if b = 0 then .nan else if 0 < b then .inf else .ninf
  | .ninf, .fin b => if b = 0 then .nan else if 0 < b then .ninf else .inf
  | .inf, .inf => .inf
  | .inf, .ninf => .ninf
  | .ninf, .inf => .ninf
  | .ninf, .ninf => .inf

/-- ECMAScript division on `JsVal`.  Division of a nonzero finite value by
zero yields a signed infinity (the zeros occurring in the client are the
positive zero of a u64 `toNumber()`); `0 / 0`, `∞ / ∞` yield `NaN`. -/
def jsDiv : JsVal → JsVal → JsVal
  | .nan, _ => .nan
  | _, .nan => .nan
  | .fin a, .fin b =>
      if b = 0 then (if a = 0 then .nan else if 0 < a then .inf else .ninf)
      else .fin (a / b)
  | .fin _, .inf => .fin 0
  | .fin _, .ninf => .fin 0
  | .inf, .fin b => if 0 ≤ b then .inf else .ninf
  | .ninf, .fin b => if 0 ≤ b then .ninf else .inf
  | .inf, .inf => .nan
  | .inf, .ninf => .nan
  | .ninf, .inf => .nan
  | .ninf, .ninf => .nan

/-- The function `Math.round`: half-way cases round toward `+∞`, which is exactly
Mathlib's `round` (`⌊x + 1/2⌋`); infinities and `NaN` pass through. -/
def jsRound : JsVal → JsVal
  | .fin a => .fin (round a : ℤ)
  | .inf => .inf
  | .ninf => .ninf
  | .nan => .nan

/-- ECMAScript exponentiation `b ** e` for the values reachable in the
client, where the exponent is always the result of `Math.round` (an
integral rational, an infinity, or `NaN`).  Following the ECMAScript
`Number::exponentiate` order: a `NaN` exponent gives `NaN`; a zero exponent
gives `1` even for a `NaN` base; then a `NaN` base gives `NaN`; a base of
absolute value one raised to `±Infinity` gives `NaN`.  Non-integral finite
exponents never occur and are mapped to `NaN`. -/
def jsPow : JsVal → JsVal → JsVal
  | _, .nan => .nan
  | b, .fin q =>
      if q = 0 then .fin 1
      else match b with
        | .nan => .nan
        | .fin a =>
            if q.den = 1 then
              if 0 ≤ q.num then .fin (a ^ q.num.toNat)
              else if a = 0 then .inf else .fin (a ^ q.num)
            else .nan
        | .inf => if 0 < q then .inf else .fin 0
        | .ninf =>
            if 0 < q then (if q.num % 2 = 0 then .inf else .ninf) else .fin 0
  | b, .inf =>
      match b with
      | .nan => .nan
      | .fin a => if 1 < |a| then .inf else if |a| = 1 then .nan else .fin 0
      | .inf => .inf
      | .ninf => .inf
  | b, .ninf =>
      match b with
      | .nan => .nan
      | .fin a => if 1 < |a| then .fin 0 else if |a| = 1 then .nan else .inf
      | .inf => .fin 0
      | .ninf => .fin 0

/-- The Pool account fields used by the client (`u64` on chain). -/
structure Pool where
  stakeTargetAmount : ℕ
  stakeAcquiredAmount : ℕ
  rewardAmount : ℕ
  depositedRewardAmount : ℕ
  topupDuration : ℕ
  lockupDuration : ℕ
  genesis : ℕ
deriving DecidableEq, Repr

/-- Function `leapYear` from `pool/index.js`:
`((year % 4 == 0) && (year % 100 != 0)) || (year % 400 == 0)`. -/
def leapYear (year : ℕ) : Bool :=
  ((year % 4 == 0) && (year % 100 != 0)) || (year % 400 == 0)

/-- Function `secondsInYear` from `pool/index.js`, with the ambient
`new Date().getFullYear()` made an explicit `year` parameter:
`days * 24 * 60 * 60` with 366 days in a leap year, 365 otherwise. -/
def secondsInYear (year : ℕ) : ℕ :=
  (if leapYear year then 366 else 365) * 24 * 60 * 60

/-- Method `Pool.calcPeriodsInYear`: `Math.round(secondsInYear() / lockupDuration)`. -/
def calcPeriodsInYear (year : ℕ) (p : Pool) : JsVal :=
  jsRound (jsDiv (.fin (secondsInYear year)) (.fin (p.lockupDuration : ℚ)))

/-- Function `calcAPY(annualRate, periodsInYear)` from `pool/index.js`:
`(1 + annualRate / periodsInYear) ** periodsInYear - 1`. -/
def calcAPY (annualRate periodsInYear : JsVal) : JsVal :=
  jsSub (jsPow (jsAdd (.fin 1) (jsDiv annualRate periodsInYear)) periodsInYear)
    (.fin 1)

/-- Method `Pool.expectedAPY`: `rate = rewardAmount / stakeTargetAmount`,
`annualRate = rate * calcPeriodsInYear()`, then
`calcAPY(annualRate, periodsInYear)` (the intermediate `const`s of the
source are inlined; `calcPeriodsInYear` is pure). -/
def expectedAPY (year : ℕ) (p : Pool) : JsVal :=
  calcAPY
    (jsMul (jsDiv (.fin (p.rewardAmount : ℚ)) (.fin (p.stakeTargetAmount : ℚ)))
      (calcPeriodsInYear year p))
    (calcPeriodsInYear year p)

/-- Method `Pool.APY` (realized): `rate = depositedRewardAmount /
stakeAcquiredAmount`, `annualRate = rate * calcPeriodsInYear()`, then
`calcAPY(annualRate, periodsInYear)`. -/
def APY (year : ℕ) (p : Pool) : JsVal :=
  calcAPY
    (jsMul
      (jsDiv (.fin (p.depositedRewardAmount : ℚ))
        (.fin (p.stakeAcquiredAmount : ℚ)))
      (calcPeriodsInYear year p))
    (calcPeriodsInYear year p)

/-!
Date views.  `new Date(ms)` is modelled as its millisecond timestamp
(a `ℕ`; the pool's `genesis` is a nonnegative unix time in seconds).
`getSeconds()` reads the seconds-of-minute field; `setSeconds(s)` replaces
that field and renormalises, leaving the sub-second milliseconds intact, so
the new timestamp is `ms - getSeconds(ms)*1000 + s*1000`.
-/

/-- Method `Date.prototype.getSeconds` on a millisecond timestamp. -/
def dateGetSeconds (ms : ℕ) : ℕ := (ms / 1000) % 60

/-- Method `Date.prototype.setSeconds` on a millisecond timestamp: the resulting
timestamp after the seconds field is replaced by `s` (with normalisation
carrying any overflow into minutes). -/
def dateSetSeconds (ms s : ℕ) : ℕ := ms - dateGetSeconds ms * 1000 + s * 1000

/-- Method `Pool.startDate`: `new Date(genesis.toNumber() * 1000)`. -/
def startDate (p : Pool) : ℕ := p.genesis * 1000

/-- Method `Pool.endDate`: `startDate()` then
`date.setSeconds(date.getSeconds() + lockupDuration)`. -/
def endDate (p : Pool) : ℕ :=
  dateSetSeconds (startDate p) (dateGetSeconds (startDate p) + p.lockupDuration)

/-- Method `Pool.topupEndDate`: `startDate()` then
`date.setSeconds(date.getSeconds() + topupDuration)`. -/
def topupEndDate (p : Pool) : ℕ :=
  dateSetSeconds (startDate p) (dateGetSeconds (startDate p) + p.topupDuration)

/-- Method `Pool.timeToDeposit`: `Math.ceil((topupEndDate() - now) / 1000)`, with
`now = new Date()` passed explicitly as a millisecond timestamp. -/
def timeToDeposit (p : Pool) (nowMs : ℕ) : ℤ :=
  ⌈(((topupEndDate p : ℚ) - (nowMs : ℚ)) / 1000)⌉

/-- Method `Pool.timeUntilWithdrawal`: `Math.ceil((endDate() - now) / 1000)`. -/
def timeUntilWithdrawal (p : Pool) (nowMs : ℕ) : ℤ :=
  ⌈(((endDate p : ℚ) - (nowMs : ℚ)) / 1000)⌉

/-!
The `Pool` constructor takes either `{ publicKey, account: { fields } }`
or the flat `{ fields }` shape, detected with `hasOwnProperty('account')`.
`PoolKey` stands for a Solana public key (any value with decidable
equality works; `ℕ` is used).  `_.extend(this, src)` copies every own
field of `src`; in the wrapped case `this.publicKey = data.publicKey` is
then assigned on top.
-/

/-!
Spec-side renderings, for refinement claims.  These follow the
specification's words, to be compared against the client definitions
above.
-/

/-- Rendered from the spec's words: the standard Gregorian leap-year rule,
"divisible by 4 and (not divisible by 100 or divisible by 400)". -/
def specLeapYear (year : ℕ) : Bool :=
  decide (year % 4 = 0 ∧ (¬ year % 100 = 0 ∨ year % 400 = 0))

/-- Rendered from the spec's words: `365×86400`, or `366×86400` if the
current year is a leap year by the Gregorian rule. -/
def specSecondsInYear (year : ℕ) : ℕ :=
  if specLeapYear year then 366 * 86400 else 365 * 86400

/-- Rendered from the spec's words:
`periodsPerYear = round(secondsInYear / lockupDurationSeconds)`. -/
def specPeriodsPerYear (year : ℕ) (p : Pool) : ℤ :=
  round ((secondsInYear year : ℚ) / (p.lockupDuration : ℚ))

/-- Rendered from the spec's words: annual-rate =
`(rewardAmount/stakeTargetAmount) * periodsPerYear`, then compounded:
`(1 + annualRate/periodsPerYear)^periodsPerYear − 1`, in exact rational
arithmetic, with `periodsPerYear` the pool's computed periods-per-year
value. -/
def specExpectedAPY (year : ℕ) (p : Pool) : ℚ :=
  (1 +
      ((p.rewardAmount : ℚ) / (p.stakeTargetAmount : ℚ)) *
          (specPeriodsPerYear year p : ℚ) /
        (specPeriodsPerYear year p : ℚ)) ^
      specPeriodsPerYear year p -
    1

/-- The literal pool of the APY test fixture (`'Calculates the APY'` in
the test suite): `stakeTargetAmount=10000, rewardAmount=1000,
lockupDuration=604800, stakeAcquiredAmount=10000,
depositedRewardAmount=500`. -/
def apyFixturePool : Pool :=
  { stakeTargetAmount := 10000
    stakeAcquiredAmount := 10000
    rewardAmount := 1000
    depositedRewardAmount := 500
    topupDuration := 0
    lockupDuration := 604800
    genesis := 0 }

/-- A Solana public key, abstractly. -/
abbrev PoolKey := ℕ

/-- The two input shapes accepted by the `Pool` constructor: one with an
own `account` property (holding the fields, plus the `publicKey`
alongside) and one that is the bare field record (whose own `publicKey`
property may or may not be present). -/
inductive PoolData where
  | wrapped (publicKey : PoolKey) (account : Pool) : PoolData
  | flat (publicKey : Option PoolKey) (fields : Pool) : PoolData
deriving DecidableEq, Repr

/-- The object constructed by `new Pool(data)`: the copied account fields
together with whatever `publicKey` ended up on the object. -/
structure PoolObject where
  publicKey : Option PoolKey
  fields : Pool
deriving DecidableEq, Repr

/-- The `Pool` constructor: if `data` has an own `account` property, copy
`data.account`'s fields and then set `publicKey` from `data.publicKey`;
otherwise copy the fields of `data` itself (including its `publicKey`
own-property when present). -/
def mkPool : PoolData → PoolObject
  | .wrapped publicKey account => { publicKey := some publicKey, fields := account }
  | .flat publicKey fields => { publicKey := publicKey, fields := fields }

end PoolClient

namespace PoolChain

/-!
Modelled from the spec: the on-chain pool program (the five protocol entry
points `initializePool`, `addStake`, `removeStake`, `addReward`,
`claimReward`, and the Pool/Ticket/Vault records they mutate) is not part
of the JavaScript sources; only its client and test suite are.  The state
machine below follows spec sections 3–4 and 7: each operation checks its
preconditions and either fails (returning `none`, with no partial
mutation) or atomically updates the pool record, the ticket table and the
vault balance.  `claimReward` follows the reference behaviour of section
4.5: `rewardShare = ticket.stakedAmount * depositedRewardAmount /
stakeAcquiredAmount` truncated toward zero, the ticket is destroyed, and
the pool accumulators are not decremented (policy (b), static totals); a
token transfer out of the vault succeeds only if the vault holds the
amount, so a payout exceeding the vault balance fails.
-/

/-- A ticket: one depositor position (spec section 3). -/
structure Ticket where
  stakedAmount : ℕ
  authority : ℕ
deriving DecidableEq, Repr

/-- An initialized pool's mutable chain state: the pool record's
accounting fields, the ticket table (keyed by ticket address), the vault
token balance, and the running total of claim payouts (a ghost field used
to state conservation). -/
structure ChainState where
  topupDuration : ℕ
  lockupDuration : ℕ
  genesis : ℕ
  stakeTargetAmount : ℕ
  rewardAmount : ℕ
  stakeAcquiredAmount : ℕ
  depositedRewardAmount : ℕ
  tickets : List (ℕ × Ticket)
  vault : ℕ
  paidOut : ℕ
deriving DecidableEq, Repr

/-- The five protocol operations, each carrying the caller-supplied
arguments and the time-source reading `now` at which it executes. -/
inductive Op where
  | initializePool (now topupDuration lockupDuration targetAmount rewardAmount : ℕ)
  | addStake (now amount ticketId authority : ℕ)
  | removeStake (now amount ticketId authority : ℕ)
  | addReward (now amount : ℕ)
  | claimReward (now ticketId authority : ℕ)
deriving DecidableEq, Repr

/-- Ticket lookup by address. -/
def lookupTicket (ts : List (ℕ × Ticket)) (tid : ℕ) : Option Ticket :=
  (ts.find? (fun e => e.1 = tid)).map (·.2)

/-- Remove a ticket (storage reclaimed). -/
def eraseTicket (ts : List (ℕ × Ticket)) (tid : ℕ) : List (ℕ × Ticket) :=
  ts.filter (fun e => e.1 ≠ tid)

/-- Replace a ticket's record. -/
def setTicket (ts : List (ℕ × Ticket)) (tid : ℕ) (t : Ticket) :
    List (ℕ × Ticket) :=
  ts.map (fun e => if e.1 = tid then (tid, t) else e)

/-- One protocol operation against one pool.  The whole-pool state is
`Option ChainState`: `none` before `initializePool` has run.  A failed
precondition returns `none` from `step` (the operation aborts with no
mutation; the caller sees the error taxonomy of spec section 7). -/
def step (s : Option ChainState) : Op → Option (Option ChainState)
  | .initializePool now topupDuration lockupDuration targetAmount rewardAmount =>
      match s with
      | some _ => none    -- AlreadyInitialized
      | none =>
          if 0 < topupDuration ∧ topupDuration ≤ lockupDuration then
            some (some {
              topupDuration := topupDuration
              lockupDuration := lockupDuration
              genesis := now
              stakeTargetAmount := targetAmount
              rewardAmount := rewardAmount
              stakeAcquiredAmount := 0
              depositedRewardAmount := 0
              tickets := []
              vault := 0
              paidOut := 0 })
          else none       -- InvalidDuration
  | .addStake now amount ticketId authority =>
      match s with
      | none => none
      | some st =>
          if now ≤ st.genesis + st.topupDuration then  -- else TopupWindowClosed
            if 0 < amount then                         -- else InvalidAmount
              if lookupTicket st.tickets ticketId = none then
                some (some { st with
                  tickets := (ticketId,
                    { stakedAmount := amount, authority := authority })
                      :: st.tickets
                  stakeAcquiredAmount := st.stakeAcquiredAmount + amount
                  vault := st.vault + amount })
              else none   -- ticket slot already in use
            else none
          else none
  | .removeStake _now amount ticketId authority =>
      match s with
      | none => none
      | some st =>
          match lookupTicket st.tickets ticketId with
          | none => none
          | some t =>
              if authority = t.authority then          -- else Unauthorized
                if amount ≤ t.stakedAmount then        -- else InsufficientStake
                  if amount ≤ st.vault then            -- token transfer must succeed
                    some (some { st with
                      tickets := setTicket st.tickets ticketId
                        { t with stakedAmount := t.stakedAmount - amount }
                      stakeAcquiredAmount := st.stakeAcquiredAmount - amount
                      vault := st.vault - amount })
                  else none
                else none
              else none
  | .addReward _now amount =>
      match s with
      | none => none
      | some st =>
          if 0 < amount then                           -- else InvalidAmount
            some (some { st with
              depositedRewardAmount := st.depositedRewardAmount + amount
              vault := st.vault + amount })
          else none
  | .claimReward now ticketId authority =>
      match s with
      | none => none
      | some st =>
          match lookupTicket st.tickets ticketId with
          | none => none  -- destroyed or never-created ticket: cannot claim
          | some t =>
              if st.genesis + st.lockupDuration ≤ now then  -- else LockupNotExpired
                if authority = t.authority then             -- else Unauthorized
                  if 0 < st.stakeAcquiredAmount then        -- else NoStakeAcquired
                    let rewardShare := t.stakedAmount * st.depositedRewardAmount /
                      st.stakeAcquiredAmount
                    let payout := t.stakedAmount + rewardShare
                    if payout ≤ st.vault then               -- token transfer must succeed
                      some (some { st with
                        tickets := eraseTicket st.tickets ticketId
                        vault := st.vault - payout
                        paidOut := st.paidOut + payout })
                    else none
                  else none
                else none
              else none

/-- Run a sequence of operations from the uninitialized state; `none` as
soon as any operation fails. -/
def run (ops : List Op) : Option (Option ChainState) :=
  ops.foldlM step none

/-- Total stake recorded across the outstanding tickets. -/
def ticketSum (ts : List (ℕ × Ticket)) : ℕ :=
  (ts.map (fun e => e.2.stakedAmount)).sum

/-- The inductive invariant of an initialized pool: ticket addresses are
distinct, outstanding ticket stakes never exceed `stakeAcquiredAmount`,
and conservation holds: vault balance plus everything already paid out by
`claimReward` equals `stakeAcquiredAmount + depositedRewardAmount`. -/
def StInv (st : ChainState) : Prop :=
  (st.tickets.map Prod.fst).Nodup ∧
    ticketSum st.tickets ≤ st.stakeAcquiredAmount ∧
    st.vault + st.paidOut = st.stakeAcquiredAmount + st.depositedRewardAmount

/-- The invariant on the optional pool state (trivial before
initialization). -/
def OptInv : Option ChainState → Prop
  | none => True
  | some st => StInv st

/-- The end-to-end scenario of the test suite and spec section 8:
initialize with `topupDuration=3, lockupDuration=6, targetAmount=10000,
rewardAmount=100`; stake 100; remove 50; add reward 100; claim after
lockup end. -/
def scenarioOps : List Op :=
  [ .initializePool 0 3 6 10000 100
  , .addStake 1 100 1 7
  , .removeStake 2 50 1 7
  , .addReward 3 100
  , .claimReward 10 1 7 ]

/-- The chain state in which the end-to-end scenario finishes. -/
def scenarioFinal : ChainState :=
  { topupDuration := 3, lockupDuration := 6, genesis := 0,
    stakeTargetAmount := 10000, rewardAmount := 100,
    stakeAcquiredAmount := 50, depositedRewardAmount := 100,
    tickets := [], vault := 0, paidOut := 150 }

end PoolChain

/-!
Evaluation lemmas for the embedded JavaScript operations, and
classification of the APY pipeline.
-/

namespace PoolClient

theorem jsDiv_nan_left (v : JsVal) : jsDiv .nan v = .nan := by cases v <;> rfl

theorem jsDiv_fin_fin (a b : ℚ) (hb : b ≠ 0) :
    jsDiv (.fin a) (.fin b) = .fin (a / b) := by
  simp [jsDiv, hb]

theorem jsDiv_fin_zero_of_pos (a : ℚ) (ha : 0 < a) :
    jsDiv (.fin a) (.fin 0) = .inf := by
  simp [jsDiv, ha, ha.ne']

theorem jsDiv_zero_zero : jsDiv (.fin 0) (.fin 0) = .nan := by simp [jsDiv]

theorem jsDiv_inf_fin_of_nonneg (b : ℚ) (hb : 0 ≤ b) :
    jsDiv .inf (.fin b) = .inf := by
  simp [jsDiv, hb]

theorem jsDiv_inf_inf : jsDiv .inf .inf = .nan := rfl

theorem jsMul_nan_left (v : JsVal) : jsMul .nan v = .nan := by cases v <;> rfl

theorem jsMul_fin_fin (a b : ℚ) : jsMul (.fin a) (.fin b) = .fin (a * b) := rfl

theorem jsMul_inf_fin_of_pos (b : ℚ) (hb : 0 < b) :
    jsMul .inf (.fin b) = .inf := by
  simp [jsMul, hb, hb.ne']

theorem jsMul_inf_fin_zero : jsMul .inf (.fin 0) = .nan := by simp [jsMul]

theorem jsMul_fin_inf_of_pos (a : ℚ) (ha : 0 < a) :
    jsMul (.fin a) .inf = .inf := by
  simp [jsMul, ha, ha.ne']

theorem jsMul_zero_inf : jsMul (.fin 0) .inf = .nan := by simp [jsMul]

theorem jsMul_inf_inf : jsMul .inf .inf = .inf := rfl

theorem jsAdd_fin_fin (a b : ℚ) : jsAdd (.fin a) (.fin b) = .fin (a + b) := rfl

theorem jsAdd_fin_nan (a : ℚ) : jsAdd (.fin a) .nan = .nan := rfl

theorem jsAdd_fin_inf (a : ℚ) : jsAdd (.fin a) .inf = .inf := rfl

theorem jsSub_fin_fin (a b : ℚ) : jsSub (.fin a) (.fin b) = .fin (a - b) := rfl

theorem jsSub_nan_left (v : JsVal) : jsSub .nan v = .nan := by cases v <;> rfl

theorem jsSub_inf_fin (a : ℚ) : jsSub .inf (.fin a) = .inf := rfl

theorem jsRound_fin (a : ℚ) : jsRound (.fin a) = .fin ((round a : ℤ) : ℚ) := rfl

theorem jsRound_inf : jsRound .inf = .inf := rfl

theorem jsPow_fin_zero (b : JsVal) : jsPow b (.fin 0) = .fin 1 := by
  cases b <;> simp [jsPow]

theorem jsPow_nan_fin (q : ℚ) (hq : q ≠ 0) : jsPow .nan (.fin q) = .nan := by
  simp [jsPow, hq]

theorem jsPow_nan_inf : jsPow .nan .inf = .nan := rfl

theorem jsPow_inf_fin_of_pos (q : ℚ) (hq : 0 < q) :
    jsPow .inf (.fin q) = .inf := by
  simp [jsPow, hq, hq.ne']

theorem jsPow_fin_intCast (a : ℚ) (n : ℤ) (h0 : 0 ≤ n) (hn : n ≠ 0) :
    jsPow (.fin a) (.fin (n : ℚ)) = .fin (a ^ n.toNat) := by
  have hq : ((n : ℚ)) ≠ 0 := by exact_mod_cast hn
  simp [jsPow, hq, Rat.den_intCast, Rat.num_intCast, h0]

theorem round_nonneg_q (x : ℚ) (hx : 0 ≤ x) : 0 ≤ round x := by
  rw [round_eq]
  exact Int.floor_nonneg.mpr (by linarith)

theorem secondsInYear_pos (year : ℕ) : 0 < secondsInYear year := by
  unfold secondsInYear
  rcases leapYear year <;> norm_num

theorem calcPeriodsInYear_of_lockup_zero (year : ℕ) (p : Pool)
    (hl : p.lockupDuration = 0) : calcPeriodsInYear year p = .inf := by
  unfold calcPeriodsInYear
  rw [hl, Nat.cast_zero,
    jsDiv_fin_zero_of_pos _ (by exact_mod_cast secondsInYear_pos year),
    jsRound_inf]

theorem calcPeriodsInYear_of_lockup_pos (year : ℕ) (p : Pool)
    (hl : p.lockupDuration ≠ 0) :
    calcPeriodsInYear year p =
      .fin ((round ((secondsInYear year : ℚ) / (p.lockupDuration : ℚ)) : ℤ) : ℚ) := by
  unfold calcPeriodsInYear
  rw [jsDiv_fin_fin _ _ (by exact_mod_cast hl), jsRound_fin]

theorem periodsRound_nonneg (year : ℕ) (p : Pool) :
    0 ≤ round ((secondsInYear year : ℚ) / (p.lockupDuration : ℚ)) :=
  round_nonneg_q _ (by positivity)

theorem calcAPY_nan_inf : calcAPY .nan .inf = .nan := rfl

theorem calcAPY_inf_inf : calcAPY .inf .inf = .nan := rfl

theorem calcAPY_nan_fin (q : ℚ) (hq : q ≠ 0) : calcAPY .nan (.fin q) = .nan := by
  unfold calcAPY
  rw [jsDiv_nan_left, jsAdd_fin_nan, jsPow_nan_fin _ hq, jsSub_nan_left]

theorem calcAPY_nan_fin_zero : calcAPY .nan (.fin 0) = .fin 0 := by
  unfold calcAPY
  rw [jsDiv_nan_left, jsAdd_fin_nan, jsPow_fin_zero, jsSub_fin_fin]
  norm_num

theorem calcAPY_inf_fin_of_pos (q : ℚ) (hq : 0 < q) :
    calcAPY .inf (.fin q) = .inf := by
  unfold calcAPY
  rw [jsDiv_inf_fin_of_nonneg _ hq.le, jsAdd_fin_inf, jsPow_inf_fin_of_pos _ hq,
    jsSub_inf_fin]

theorem calcAPY_fin_intCast (a : ℚ) (n : ℤ) (hn : 0 < n) :
    calcAPY (.fin a) (.fin (n : ℚ)) = .fin ((1 + a / (n : ℚ)) ^ n.toNat - 1) := by
  have hq : ((n : ℚ)) ≠ 0 := by exact_mod_cast hn.ne'
  unfold calcAPY
  rw [jsDiv_fin_fin _ _ hq, jsAdd_fin_fin, jsPow_fin_intCast _ _ hn.le hn.ne',
    jsSub_fin_fin]

end PoolClient

namespace PoolClient

/-- Shared shape of both APY pipelines when the rate's denominator
(`stakeTargetAmount` or `stakeAcquiredAmount`) is zero: the result is
`Infinity`, `NaN` or `0`, never an error. -/
theorem apyPipeline_den_zero (year : ℕ) (p : Pool) (x : ℕ) :
    calcAPY (jsMul (jsDiv (.fin (x : ℚ)) (.fin 0)) (calcPeriodsInYear year p))
        (calcPeriodsInYear year p) = .inf ∨
      calcAPY (jsMul (jsDiv (.fin (x : ℚ)) (.fin 0)) (calcPeriodsInYear year p))
        (calcPeriodsInYear year p) = .nan ∨
      calcAPY (jsMul (jsDiv (.fin (x : ℚ)) (.fin 0)) (calcPeriodsInYear year p))
        (calcPeriodsInYear year p) = .fin 0 := by
  rcases Nat.eq_zero_or_pos x with hx | hx
  · subst hx
    rw [Nat.cast_zero, jsDiv_zero_zero, jsMul_nan_left]
    rcases Nat.eq_zero_or_pos p.lockupDuration with hl | hl
    · rw [calcPeriodsInYear_of_lockup_zero year p hl, calcAPY_nan_inf]
      right; left; rfl
    · rw [calcPeriodsInYear_of_lockup_pos year p hl.ne']
      rcases eq_or_lt_of_le (periodsRound_nonneg year p) with hz | hpos
      · rw [← hz, Int.cast_zero, calcAPY_nan_fin_zero]
        right; right; rfl
      · rw [calcAPY_nan_fin _ (by exact_mod_cast hpos.ne')]
        right; left; rfl
  · have hx' : (0 : ℚ) < (x : ℚ) := by exact_mod_cast hx
    rw [jsDiv_fin_zero_of_pos _ hx']
    rcases Nat.eq_zero_or_pos p.lockupDuration with hl | hl
    · rw [calcPeriodsInYear_of_lockup_zero year p hl, jsMul_inf_inf,
        calcAPY_inf_inf]
      right; left; rfl
    · rw [calcPeriodsInYear_of_lockup_pos year p hl.ne']
      rcases eq_or_lt_of_le (periodsRound_nonneg year p) with hz | hpos
      · rw [← hz, Int.cast_zero, jsMul_inf_fin_zero, calcAPY_nan_fin_zero]
        right; right; rfl
      · have hq : (0 : ℚ) <
            ((round ((secondsInYear year : ℚ) / (p.lockupDuration : ℚ)) : ℤ) : ℚ) := by
          exact_mod_cast hpos
        rw [jsMul_inf_fin_of_pos _ hq, calcAPY_inf_fin_of_pos _ hq]
        left; rfl

/-- Shared shape of both APY pipelines when `periodsInYear` is Infinity
(zero lockup duration): the result is always `NaN`. -/
theorem apyPipeline_periods_inf (x y : ℚ) (hx : 0 ≤ x) (hy : 0 ≤ y) :
    calcAPY (jsMul (jsDiv (.fin x) (.fin y)) .inf) .inf = .nan := by
  rcases eq_or_lt_of_le hy with hy0 | hy0
  · rcases eq_or_lt_of_le hx with hx0 | hx0
    · rw [← hy0, ← hx0, jsDiv_zero_zero, jsMul_nan_left, calcAPY_nan_inf]
    · rw [← hy0, jsDiv_fin_zero_of_pos _ hx0, jsMul_inf_inf, calcAPY_inf_inf]
  · rw [jsDiv_fin_fin _ _ hy0.ne']
    rcases eq_or_lt_of_le (div_nonneg hx hy0.le) with hd0 | hd0
    · rw [← hd0, jsMul_zero_inf, calcAPY_nan_inf]
    · rw [jsMul_fin_inf_of_pos _ hd0]
      unfold calcAPY
      rw [jsDiv_inf_inf, jsAdd_fin_nan, jsPow_nan_inf, jsSub_nan_left]

theorem rnd365 : round ((365 : ℚ) / 7) = 52 := by
  rw [round_eq, Int.floor_eq_iff]
  norm_num

theorem rnd366 : round ((366 : ℚ) / 7) = 52 := by
  rw [round_eq, Int.floor_eq_iff]
  norm_num

/-- For a one-week lockup the periods-per-year value is 52 in every
calendar year, leap or not. -/
theorem calcPeriodsInYear_week (year : ℕ) (p : Pool)
    (h6 : p.lockupDuration = 604800) : calcPeriodsInYear year p = .fin 52 := by
  rw [calcPeriodsInYear_of_lockup_pos year p (by rw [h6]; norm_num), h6]
  unfold secondsInYear
  rcases h : leapYear year
  · simp only [h, Bool.false_eq_true, if_false]
    norm_num
    rw [rnd365]
    norm_num
  · simp only [h, if_true]
    norm_num
    rw [rnd366]
    norm_num

theorem leapYear_eq_spec (year : ℕ) : leapYear year = specLeapYear year := by
  unfold leapYear specLeapYear
  rw [Bool.eq_iff_iff]
  simp only [Bool.or_eq_true, Bool.and_eq_true, beq_iff_eq, bne_iff_ne, ne_eq,
    decide_eq_true_eq]
  omega

theorem secondsInYear_eq_spec (year : ℕ) :
    secondsInYear year = specSecondsInYear year := by
  unfold secondsInYear specSecondsInYear
  rw [leapYear_eq_spec]
  rcases specLeapYear year <;> norm_num

theorem endDate_ms (p : Pool) : endDate p = (p.genesis + p.lockupDuration) * 1000 := by
  unfold endDate dateSetSeconds dateGetSeconds startDate
  omega

theorem topupEndDate_ms (p : Pool) :
    topupEndDate p = (p.genesis + p.topupDuration) * 1000 := by
  unfold topupEndDate dateSetSeconds dateGetSeconds startDate
  omega

end PoolClient

namespace PoolClient

/-- C2: for the pool with `stakeTargetAmount=10000, rewardAmount=1000,
lockupDuration=604800, stakeAcquiredAmount=10000,
depositedRewardAmount=500`, in every calendar year `expectedAPY()` returns
`(11/10)^52 - 1` and the realized `APY()` returns `(21/20)^52 - 1`, and
these agree with `141.04293198443193` and `11.642808263793455`
respectively to within `10^-10` (at least 10 significant decimal
digits). -/
theorem apy_literal_case (year : ℕ) :
    expectedAPY year apyFixturePool = .fin ((11/10 : ℚ) ^ 52 - 1) ∧
      APY year apyFixturePool = .fin ((21/20 : ℚ) ^ 52 - 1) ∧
      |((11/10 : ℚ) ^ 52 - 1) - 141.04293198443193| < 1/10^10 ∧
      |((21/20 : ℚ) ^ 52 - 1) - 11.642808263793455| < 1/10^10 := by
  refine ⟨?_, ?_, ?_, ?_⟩
  · unfold expectedAPY calcAPY
    rw [calcPeriodsInYear_week year apyFixturePool rfl]
    simp only [apyFixturePool]
    rw [jsDiv_fin_fin _ _ (by norm_num), jsMul_fin_fin,
      jsDiv_fin_fin _ _ (by norm_num), jsAdd_fin_fin]
    rw [show (JsVal.fin (52:ℚ)) = JsVal.fin (((52:ℤ) : ℚ)) by norm_num]
    rw [jsPow_fin_intCast _ 52 (by norm_num) (by norm_num), jsSub_fin_fin]
    rw [show ((52:ℤ)).toNat = 52 from rfl]
    norm_num
  · unfold APY calcAPY
    rw [calcPeriodsInYear_week year apyFixturePool rfl]
    simp only [apyFixturePool]
    rw [jsDiv_fin_fin _ _ (by norm_num), jsMul_fin_fin,
      jsDiv_fin_fin _ _ (by norm_num), jsAdd_fin_fin]
    rw [show (JsVal.fin (52:ℚ)) = JsVal.fin (((52:ℤ) : ℚ)) by norm_num]
    rw [jsPow_fin_intCast _ 52 (by norm_num) (by norm_num), jsSub_fin_fin]
    rw [show ((52:ℤ)).toNat = 52 from rfl]
    norm_num
  · rw [abs_sub_lt_iff]
    constructor <;> norm_num
  · rw [abs_sub_lt_iff]
    constructor <;> norm_num

/-- C3, counterexample: with `stakeAcquiredAmount = 0` (and
`depositedRewardAmount = 500 > 0`) the realized `APY()` silently returns
`Infinity` — it is not an error and not a non-`Infinity`/`NaN` sentinel,
contradicting the claim. -/
theorem apy_zero_stake_returns_infinity :
    ¬ (APY 2021 { apyFixturePool with stakeAcquiredAmount := 0 } ≠ JsVal.inf ∧
        APY 2021 { apyFixturePool with stakeAcquiredAmount := 0 } ≠ JsVal.nan) := by
  have hv : APY 2021 { apyFixturePool with stakeAcquiredAmount := 0 } = JsVal.inf := by
    unfold APY calcAPY
    rw [calcPeriodsInYear_week 2021 _ rfl]
    simp only [jsDiv, jsMul, jsAdd, jsSub, jsPow, apyFixturePool]
    norm_num
  intro hc
  exact hc.1 hv

/-- C3, amended: there is no `UndefinedYield` failure; with
`stakeAcquiredAmount == 0` the realized `APY()` silently evaluates to
`Infinity`, `NaN`, or `0` (`Infinity` when `depositedRewardAmount > 0` and
the periods-per-year value is a positive finite number; `NaN` or `0` in
the degenerate sub-cases), and likewise `expectedAPY()` with
`stakeTargetAmount == 0`. -/
theorem apy_zero_stake_silent_value (year : ℕ) (p : Pool) :
    (p.stakeAcquiredAmount = 0 →
      APY year p = .inf ∨ APY year p = .nan ∨ APY year p = .fin 0) ∧
    (p.stakeTargetAmount = 0 →
      expectedAPY year p = .inf ∨ expectedAPY year p = .nan ∨
        expectedAPY year p = .fin 0) := by
  constructor
  · intro h
    unfold APY
    rw [h, Nat.cast_zero]
    exact apyPipeline_den_zero year p _
  · intro h
    unfold expectedAPY
    rw [h, Nat.cast_zero]
    exact apyPipeline_den_zero year p _

/-- Witness for the amended C3 at a concrete pool. -/
theorem apy_zero_stake_silent_value_witness :
    (APY 2021 { apyFixturePool with stakeAcquiredAmount := 0 } = .inf ∨
      APY 2021 { apyFixturePool with stakeAcquiredAmount := 0 } = .nan ∨
      APY 2021 { apyFixturePool with stakeAcquiredAmount := 0 } = .fin 0) ∧
    (expectedAPY 2021 { apyFixturePool with stakeTargetAmount := 0 } = .inf ∨
      expectedAPY 2021 { apyFixturePool with stakeTargetAmount := 0 } = .nan ∨
      expectedAPY 2021 { apyFixturePool with stakeTargetAmount := 0 } = .fin 0) :=
  ⟨(apy_zero_stake_silent_value 2021
      { apyFixturePool with stakeAcquiredAmount := 0 }).1 rfl,
    (apy_zero_stake_silent_value 2021
      { apyFixturePool with stakeTargetAmount := 0 }).2 rfl⟩

/-- C4, counterexample: with `lockupDuration = 0` the APY engine does not
fail with `InvalidDuration`; it proceeds (`periodsPerYear` is `Infinity`)
and `expectedAPY()` returns the JavaScript number `NaN`. -/
theorem apy_zero_lockup_returns_value :
    expectedAPY 2021 { apyFixturePool with lockupDuration := 0 } = JsVal.nan := by
  unfold expectedAPY
  rw [calcPeriodsInYear_of_lockup_zero 2021 _ rfl]
  exact apyPipeline_periods_inf _ _ (by positivity) (by positivity)

/-- C4, amended: for every pool with `lockupDuration == 0` the APY engine
computes `periodsPerYear = Infinity` and both `expectedAPY()` and `APY()`
silently return `NaN`; no `InvalidDuration` error exists. -/
theorem apy_zero_lockup_nan (year : ℕ) (p : Pool) (hl : p.lockupDuration = 0) :
    expectedAPY year p = JsVal.nan ∧ APY year p = JsVal.nan := by
  constructor
  · unfold expectedAPY
    rw [calcPeriodsInYear_of_lockup_zero year p hl]
    exact apyPipeline_periods_inf _ _ (by positivity) (by positivity)
  · unfold APY
    rw [calcPeriodsInYear_of_lockup_zero year p hl]
    exact apyPipeline_periods_inf _ _ (by positivity) (by positivity)

/-- Witness for the amended C4 at a concrete pool. -/
theorem apy_zero_lockup_nan_witness :
    expectedAPY 2021 { apyFixturePool with lockupDuration := 0 } = JsVal.nan ∧
      APY 2021 { apyFixturePool with lockupDuration := 0 } = JsVal.nan :=
  apy_zero_lockup_nan 2021 { apyFixturePool with lockupDuration := 0 } rfl

/-- C5: for every pool with `stakeTargetAmount > 0` and
`lockupDuration > 0`, `expectedAPY()` equals the spec's compounded
formula `(1 + annualRate/periodsPerYear)^periodsPerYear − 1` with
`annualRate = (rewardAmount/stakeTargetAmount) * periodsPerYear`,
rendered in exact rational arithmetic by `specExpectedAPY`. -/
theorem expectedAPY_matches_spec_formula (year : ℕ) (p : Pool)
    (ht : 0 < p.stakeTargetAmount) (hl : 0 < p.lockupDuration) :
    expectedAPY year p = .fin (specExpectedAPY year p) := by
  unfold expectedAPY specExpectedAPY specPeriodsPerYear
  rw [calcPeriodsInYear_of_lockup_pos year p hl.ne']
  have htq : ((p.stakeTargetAmount : ℚ)) ≠ 0 := by positivity
  rw [jsDiv_fin_fin _ _ htq, jsMul_fin_fin]
  set n : ℤ := round ((secondsInYear year : ℚ) / (p.lockupDuration : ℚ)) with hn
  rcases eq_or_lt_of_le (periodsRound_nonneg year p) with hz | hpos
  · rw [← hn] at hz
    rw [← hz, Int.cast_zero, mul_zero, zpow_zero]
    unfold calcAPY
    rw [jsDiv_zero_zero, jsAdd_fin_nan, jsPow_fin_zero, jsSub_fin_fin]
  · rw [← hn] at hpos
    rw [calcAPY_fin_intCast _ _ hpos]
    have hb : ∀ b : ℚ, b ^ (n : ℤ) = b ^ n.toNat := by
      intro b
      rw [← zpow_natCast b n.toNat, Int.toNat_of_nonneg hpos.le]
    rw [hb]

/-- Witness for C5 at the APY test fixture pool. -/
theorem expectedAPY_matches_spec_formula_witness :
    expectedAPY 2021 apyFixturePool = .fin (specExpectedAPY 2021 apyFixturePool) :=
  expectedAPY_matches_spec_formula 2021 apyFixturePool (by decide) (by decide)

/-- C6: for every pool and year, the realized `APY()` is exactly
`expectedAPY()` evaluated on the same pool with `rewardAmount` replaced by
`depositedRewardAmount` and `stakeTargetAmount` replaced by
`stakeAcquiredAmount`, the lockup duration kept equal. -/
theorem realizedAPY_is_expectedAPY_substituted (year : ℕ) (p : Pool) :
    APY year p = expectedAPY year
      { p with rewardAmount := p.depositedRewardAmount,
               stakeTargetAmount := p.stakeAcquiredAmount } := rfl

/-- C7: for every pool with positive lockup duration and every calendar
year, `calcPeriodsInYear()` returns `round(secondsInYear /
lockupDuration)` where `secondsInYear` is `366×86400` exactly when the
year satisfies the Gregorian rule (divisible by 4 and (not divisible by
100 or divisible by 400)) and `365×86400` otherwise. -/
theorem calcPeriodsInYear_gregorian (year : ℕ) (p : Pool)
    (hl : 0 < p.lockupDuration) :
    calcPeriodsInYear year p =
      .fin ((round ((specSecondsInYear year : ℚ) / (p.lockupDuration : ℚ)) : ℤ) : ℚ) := by
  rw [calcPeriodsInYear_of_lockup_pos year p hl.ne', secondsInYear_eq_spec]

/-- Witness for C7 at the APY test fixture pool. -/
theorem calcPeriodsInYear_gregorian_witness :
    calcPeriodsInYear 2021 apyFixturePool =
      .fin ((round ((specSecondsInYear 2021 : ℚ) /
        (apyFixturePool.lockupDuration : ℚ)) : ℤ) : ℚ) :=
  calcPeriodsInYear_gregorian 2021 apyFixturePool (by decide)

/-- C8: `startDate()` denotes the instant `genesis`, `endDate()` the
instant `genesis + lockupDuration`, and `topupEndDate()` the instant
`genesis + topupDuration`, as millisecond timestamps of those instants
expressed in seconds. -/
theorem date_views_correct (p : Pool) :
    startDate p = p.genesis * 1000 ∧
      endDate p = (p.genesis + p.lockupDuration) * 1000 ∧
      topupEndDate p = (p.genesis + p.topupDuration) * 1000 :=
  ⟨rfl, endDate_ms p, topupEndDate_ms p⟩

/-- C9, counterexample: at `genesis = 0`, `topupDuration = 3` and
`now = 500 ms`, `timeToDeposit()` returns `3`, not the exact difference
`topupEndDate − now = 2.5` seconds, refuting the claim's exact
equality. -/
theorem timeToDeposit_not_exact_difference :
    ((timeToDeposit
        { stakeTargetAmount := 10000, stakeAcquiredAmount := 0, rewardAmount := 100,
          depositedRewardAmount := 0, topupDuration := 3, lockupDuration := 6,
          genesis := 0 } 500 : ℤ) : ℚ) ≠
      ((topupEndDate
        { stakeTargetAmount := 10000, stakeAcquiredAmount := 0, rewardAmount := 100,
          depositedRewardAmount := 0, topupDuration := 3, lockupDuration := 6,
          genesis := 0 } : ℚ) / 1000 - (500 : ℚ) / 1000) := by
  rw [topupEndDate_ms]
  unfold timeToDeposit
  rw [topupEndDate_ms]
  norm_num
  rw [show (⌈(5/2 : ℚ)⌉ : ℤ) = 3 by rw [Int.ceil_eq_iff]; norm_num]
  norm_num

/-- C9, amended: `timeToDeposit()` returns the difference
`topupEndDate − now` in seconds rounded up to the next whole second
(`Math.ceil` of the millisecond difference divided by 1000), and likewise
`timeUntilWithdrawal()` for `endDate − now`; the values are exact only
when `now` falls on a whole-second boundary. -/
theorem time_views_are_ceil (p : Pool) (nowMs : ℕ) :
    timeToDeposit p nowMs =
        ⌈((p.genesis : ℚ) + (p.topupDuration : ℚ) - (nowMs : ℚ) / 1000)⌉ ∧
      timeUntilWithdrawal p nowMs =
        ⌈((p.genesis : ℚ) + (p.lockupDuration : ℚ) - (nowMs : ℚ) / 1000)⌉ := by
  constructor
  · unfold timeToDeposit
    rw [topupEndDate_ms]
    congr 1
    push_cast
    ring
  · unfold timeUntilWithdrawal
    rw [endDate_ms]
    congr 1
    push_cast
    ring

/-- C10: the `Pool` constructor normalizes its two accepted input shapes
to the same record: a wrapped `{ publicKey, account }` input produces the
same object as the flat shape carrying the same fields and key, a flat
input's own fields are exposed unchanged, and a wrapped input's
`publicKey` is taken from the wrapper. -/
theorem constructor_normalizes_shapes (pk : PoolKey) (fields : Pool)
    (opk : Option PoolKey) :
    mkPool (.wrapped pk fields) = mkPool (.flat (some pk) fields) ∧
      (mkPool (.flat opk fields)).fields = fields ∧
      (mkPool (.wrapped pk fields)).publicKey = some pk :=
  ⟨rfl, rfl, rfl⟩

end PoolClient

namespace PoolChain

theorem lookupTicket_eq_none (ts : List (ℕ × Ticket)) (tid : ℕ)
    (h : lookupTicket ts tid = none) : tid ∉ ts.map Prod.fst := by
  unfold lookupTicket at h
  have h2 := List.find?_eq_none.mp (Option.map_eq_none'.mp h)
  intro hmem
  rcases List.mem_map.mp hmem with ⟨e, he, hfst⟩
  have h3 := h2 e he
  simp only [decide_eq_true_eq] at h3
  exact h3 hfst

theorem lookupTicket_mem (ts : List (ℕ × Ticket)) (tid : ℕ) (t : Ticket)
    (h : lookupTicket ts tid = some t) : (tid, t) ∈ ts := by
  unfold lookupTicket at h
  rcases Option.map_eq_some'.mp h with ⟨e, he, ht⟩
  have hp := List.find?_some he
  simp only [decide_eq_true_eq] at hp
  have hm := List.mem_of_find?_eq_some he
  have : (tid, t) = e := by
    cases e
    simp_all
  rw [this]
  exact hm

theorem staked_le_ticketSum (ts : List (ℕ × Ticket)) (tid : ℕ) (t : Ticket)
    (h : (tid, t) ∈ ts) : t.stakedAmount ≤ ticketSum ts :=
  List.single_le_sum (fun _ _ => Nat.zero_le _) _
    (List.mem_map.mpr ⟨(tid, t), h, rfl⟩)

theorem keys_setTicket (ts : List (ℕ × Ticket)) (tid : ℕ) (t' : Ticket) :
    (setTicket ts tid t').map Prod.fst = ts.map Prod.fst := by
  unfold setTicket
  rw [List.map_map]
  apply List.map_congr_left
  intro e _
  by_cases h : e.1 = tid
  · simp [h]
  · simp [h]

theorem setTicket_eq_of_not_mem (ts : List (ℕ × Ticket)) (tid : ℕ) (t' : Ticket)
    (h : tid ∉ ts.map Prod.fst) : setTicket ts tid t' = ts := by
  induction ts with
  | nil => rfl
  | cons e rest ih =>
    simp only [List.map_cons, List.mem_cons] at h
    push_neg at h
    unfold setTicket
    simp only [List.map_cons, List.map]
    rw [if_neg (fun hh => h.1 hh.symm)]
    have := ih h.2
    unfold setTicket at this
    rw [this]

theorem ticketSum_cons (e : ℕ × Ticket) (ts : List (ℕ × Ticket)) :
    ticketSum (e :: ts) = e.2.stakedAmount + ticketSum ts := by
  unfold ticketSum
  simp

theorem ticketSum_setTicket (ts : List (ℕ × Ticket)) (tid : ℕ) (t t' : Ticket)
    (hnd : (ts.map Prod.fst).Nodup) (h : lookupTicket ts tid = some t) :
    ticketSum (setTicket ts tid t') + t.stakedAmount =
      ticketSum ts + t'.stakedAmount := by
  induction ts with
  | nil => simp [lookupTicket] at h
  | cons e rest ih =>
    rw [List.map_cons, List.nodup_cons] at hnd
    by_cases he : e.1 = tid
    · have ht : e.2 = t := by
        unfold lookupTicket at h
        rw [List.find?_cons_of_pos _ (by simp [he])] at h
        simp at h
        exact h
      have hrest : tid ∉ rest.map Prod.fst := he ▸ hnd.1
      unfold setTicket
      simp only [List.map_cons, List.map, if_pos he]
      have hr := setTicket_eq_of_not_mem rest tid t' hrest
      unfold setTicket at hr
      rw [hr, ticketSum_cons, ticketSum_cons, ht]
      dsimp only
      omega
    · have hh : lookupTicket rest tid = some t := by
        unfold lookupTicket at h ⊢
        rw [List.find?_cons_of_neg _ (by simp [he])] at h
        exact h
      have := ih hnd.2 hh
      unfold setTicket
      simp only [List.map_cons, List.map, if_neg he]
      unfold setTicket at this
      rw [ticketSum_cons, ticketSum_cons]
      omega

theorem ticketSum_eraseTicket_le (ts : List (ℕ × Ticket)) (tid : ℕ) :
    ticketSum (eraseTicket ts tid) ≤ ticketSum ts := by
  unfold ticketSum eraseTicket
  exact ((List.filter_sublist ts).map _).sum_le_sum (fun _ _ => Nat.zero_le _)

theorem keys_eraseTicket_nodup (ts : List (ℕ × Ticket)) (tid : ℕ)
    (h : (ts.map Prod.fst).Nodup) : ((eraseTicket ts tid).map Prod.fst).Nodup :=
  h.sublist ((List.filter_sublist ts).map _)

theorem step_inv {s s' : Option ChainState} {op : Op} (hinv : OptInv s)
    (hstep : step s op = some s') : OptInv s' := by
  cases op with
  | initializePool now td ld ta ra =>
    cases s with
    | some st => simp [step] at hstep
    | none =>
      simp only [step] at hstep
      split_ifs at hstep with hc
      · simp only [Option.some.injEq] at hstep
        subst hstep
        exact ⟨List.nodup_nil, Nat.le_refl 0, rfl⟩
  | addStake now amount tid auth =>
    cases s with
    | none => simp [step] at hstep
    | some st =>
      obtain ⟨hnd, hsum, hcons⟩ : StInv st := hinv
      simp only [step] at hstep
      split_ifs at hstep with h1 h2 h3
      · simp only [Option.some.injEq] at hstep
        subst hstep
        refine ⟨?_, ?_, ?_⟩
        · rw [List.map_cons, List.nodup_cons]
          exact ⟨lookupTicket_eq_none _ _ h3, hnd⟩
        · rw [ticketSum_cons]
          dsimp only
          omega
        · dsimp only
          omega
  | removeStake now amount tid auth =>
    cases s with
    | none => simp [step] at hstep
    | some st =>
      obtain ⟨hnd, hsum, hcons⟩ : StInv st := hinv
      simp only [step] at hstep
      cases hl : lookupTicket st.tickets tid with
      | none => rw [hl] at hstep; simp at hstep
      | some t =>
        rw [hl] at hstep
        simp only at hstep
        split_ifs at hstep with h1 h2 h3
        · simp only [Option.some.injEq] at hstep
          subst hstep
          have hmem := lookupTicket_mem _ _ _ hl
          have hts := staked_le_ticketSum _ _ _ hmem
          have hset := ticketSum_setTicket st.tickets tid t
            { t with stakedAmount := t.stakedAmount - amount } hnd hl
          refine ⟨?_, ?_, ?_⟩
          · rw [keys_setTicket]
            exact hnd
          · dsimp only
            dsimp only at hset
            omega
          · dsimp only
            omega
  | addReward now amount =>
    cases s with
    | none => simp [step] at hstep
    | some st =>
      obtain ⟨hnd, hsum, hcons⟩ : StInv st := hinv
      simp only [step] at hstep
      split_ifs at hstep with h1
      · simp only [Option.some.injEq] at hstep
        subst hstep
        exact ⟨hnd, by dsimp only; omega, by dsimp only; omega⟩
  | claimReward now tid auth =>
    cases s with
    | none => simp [step] at hstep
    | some st =>
      obtain ⟨hnd, hsum, hcons⟩ : StInv st := hinv
      simp only [step] at hstep
      cases hl : lookupTicket st.tickets tid with
      | none => rw [hl] at hstep; simp at hstep
      | some t =>
        rw [hl] at hstep
        simp only at hstep
        split_ifs at hstep with h1 h2 h3 h4
        · simp only [Option.some.injEq] at hstep
          subst hstep
          have herase := ticketSum_eraseTicket_le st.tickets tid
          refine ⟨keys_eraseTicket_nodup _ _ hnd, ?_, ?_⟩
          · dsimp only
            omega
          · dsimp only
            omega

theorem foldl_inv (ops : List Op) (s : Option ChainState) (hinv : OptInv s)
    (s' : Option ChainState) (h : ops.foldlM step s = some s') : OptInv s' := by
  induction ops generalizing s with
  | nil =>
    simp only [List.foldlM_nil] at h
    cases h
    exact hinv
  | cons op rest ih =>
    rw [List.foldlM_cons] at h
    cases hstep : step s op with
    | none => rw [hstep] at h; exact Option.noConfusion h
    | some s1 =>
      rw [hstep] at h
      exact ih s1 (step_inv hinv hstep) h

/-- C1: after every successful sequence of operations against one pool
(`initializePool`, `addStake`, `removeStake`, `addReward`,
`claimReward`), the Vault token balance equals
`stakeAcquiredAmount + depositedRewardAmount` minus the sum of all payout
amounts already paid out by `claimReward`. -/
theorem conservation_of_funds (ops : List Op) (st : ChainState) (h : run ops = some (some st)) :
    (st.vault : ℤ) =
      (st.stakeAcquiredAmount : ℤ) + (st.depositedRewardAmount : ℤ) -
        (st.paidOut : ℤ) := by
  have hinv : OptInv (some st) := foldl_inv ops none trivial (some st) h
  obtain ⟨-, -, hcons⟩ : StInv st := hinv
  omega

/-- Witness for C1: the end-to-end scenario of the test suite, evaluated
concretely. -/
theorem conservation_of_funds_witness :
    (scenarioFinal.vault : ℤ) =
      (scenarioFinal.stakeAcquiredAmount : ℤ) +
        (scenarioFinal.depositedRewardAmount : ℤ) - (scenarioFinal.paidOut : ℤ) :=
  conservation_of_funds scenarioOps scenarioFinal (by decide)

end PoolChain
